import Mathlib

/-!
Shallow embedding of the OpenTRV modelled radiator valve controller
(`src/content/OTRadioLink/utility/OTRadValve_ModelledRadValve.cpp`):
the per-minute `tick` orchestrator and the pure decision procedure
`computeRequiredTRVPercentOpen`, together with the temperature-history filter.

Machine-integer conventions used throughout the embedding:
 - C `int` values (temperatures in 1/16 C, "C16") are modelled as `Int`;
   C truncating division `/` is `Int.tdiv`, arithmetic shift `>> 4` is
   `Int.fdiv _ 16`, and bit-masking `& 0xf` is `Int.emod _ 16`.
 - C `uint8_t` percentages are modelled as `Nat`; the one place the source
   narrows an intermediate sum back to `uint8_t` is modelled with `% 256`.
 - Truncation of an `int` to `int8_t` is modelled by `toInt8`.

The class declarations (header file) of `ModelledRadValveState` are not part
of the source tree available here, only the implementation file; the fields,
accessors and named constants that live in headers are therefore modelled
from the specification and are each marked `Modelled from the spec:` below.
-/

namespace OTRadValve

/-- Offset from raw temperature to reference temperature in C/16
(`refTempOffsetC16 = 8` in the implementation file). -/
def refTempOffsetC16 : Int := 8

/-- Minimum slew/error % distance in central range (`TRV_MIN_SLEW_PC`). -/
def TRV_MIN_SLEW_PC : Nat := 7

/-- Maximum normal slew rate %/min (`TRV_MAX_SLEW_PC_PER_MIN`),
with the default (non-glacial) compile-time configuration. -/
def TRV_MAX_SLEW_PC_PER_MIN : Nat := 5

/-- Fast slew rate: `min(20, 2*TRV_MAX_SLEW_PC_PER_MIN)`. -/
def TRV_SLEW_PC_PER_MIN_FAST : Nat := min 20 (2 * TRV_MAX_SLEW_PC_PER_MIN)

/-- Very fast slew rate: `min(34, 4*TRV_MAX_SLEW_PC_PER_MIN)`. -/
def TRV_SLEW_PC_PER_MIN_VFAST : Nat := min 34 (4 * TRV_MAX_SLEW_PC_PER_MIN)

/-- Maximum jump between adjacent readings before forcing filtering
(`MAX_TEMP_JUMP_C16 = 3`), used via `abs(..) <= / >` comparisons. -/
def MAX_TEMP_JUMP_C16 : Nat := 3

/-- Minimum drop in temperature to trigger the window-open response
(`MIN_WINDOW_OPEN_TEMP_FALL_C16 = 16`, ie 1C). -/
def MIN_WINDOW_OPEN_TEMP_FALL_C16 : Int := 16

/-- Minutes over which the fall is measured (`MIN_WINDOW_OPEN_TEMP_FALL_M = 10`). -/
def MIN_WINDOW_OPEN_TEMP_FALL_M : Nat := 10

/-- Modelled from the spec: the length of the temperature-history shift
register, declared in the missing header; the spec fixes N = 4
("reference implementation uses 4", "4-entry history"). -/
def filterLength : Nat := 4

/-- Modelled from the spec: the frost-safety floor temperature (whole degrees C)
used by the window-open guard; the constant is declared in the missing header.
The claims only constrain it through explicit hypotheses. -/
def MIN_VALVE_TARGET_C : Int := 5

/-- Modelled from the spec: the "safer-open" percentage threshold
(`DEFAULT_VALVE_PC_SAFER_OPEN`), declared in a missing header. -/
def DEFAULT_VALVE_PC_SAFER_OPEN : Nat := 50

/-- Modelled from the spec: the "moderately open" percentage reference
(`DEFAULT_VALVE_PC_MODERATELY_OPEN`), declared in a missing header. -/
def DEFAULT_VALVE_PC_MODERATELY_OPEN : Nat := 35

/-- Modelled from the spec: the configured max-run-on allowance
(`DEFAULT_MAX_RUN_ON_TIME_M`), declared in a missing header. -/
def DEFAULT_MAX_RUN_ON_TIME_M : Nat := 5

/-- Modelled from the spec: ticks for which re-closing is deferred after the
valve was turned up; the spec leaves the magnitude as a named configuration
constant, required only to be positive. -/
def ANTISEEK_VALVE_RECLOSE_DELAY_M : Nat := 5

/-- Modelled from the spec: ticks for which re-opening is deferred after the
valve was turned down; a named configuration constant, positive. -/
def ANTISEEK_VALVE_REOPEN_DELAY_M : Nat := 10

/-- Arduino-style `constrain(x, lo, hi)` macro on unsigned values. -/
def constrain (x lo hi : Nat) : Nat := if x < lo then lo else if x > hi then hi else x

/-- Truncation of a C `int` value to `int8_t` (two's complement wrap). -/
def toInt8 (x : Int) : Int := (x + 128).emod 256 - 128

/-- Per-tick input snapshot (`ModelledRadValveInputState`): target and bound
fields are `uint8_t`, mode flags `bool`, `refTempC16` a signed `int`. -/
structure ModelledRadValveInputState where
  targetTempC : Nat
  minPCOpen : Nat
  maxPCOpen : Nat
  widenDeadband : Bool
  glacial : Bool
  hasEcoBias : Bool
  inBakeMode : Bool
  fastResponseRequired : Bool
  refTempC16 : Int
deriving DecidableEq

/-- Persistent control state (`ModelledRadValveState`).
Modelled from the spec: the field list lives in the missing header; the spec
gives the history buffer (most-recent first), the lazy-init flag, the
filtering flag, the two anti-hunt countdown counters (each named here for the
movement event that arms it, as in the implementation file's `tick`), the
cumulative-movement telemetry counter and the last-move flag. -/
structure ModelledRadValveState where
  prevRawTempC16 : List Int
  initialised : Bool
  isFiltering : Bool
  valveTurndownCountdownM : Nat
  valveTurnupCountdownM : Nat
  cumulativeMovementPC : Nat
  valveMoved : Bool
deriving DecidableEq

namespace ModelledRadValveState

/-- `smallIntMean<N>`: `(sum + (int)(N/2)) / (int)N` with C truncating
division, instantiated (as in the source) at `N = filterLength`. -/
def smallIntMean (data : List Int) : Int :=
  Int.tdiv (data.sum + Int.ofNat (filterLength / 2)) (Int.ofNat filterLength)

/-- `getSmoothedRecent`: smoothed raw temperature over the history buffer. -/
def getSmoothedRecent (s : ModelledRadValveState) : Int :=
  smallIntMean s.prevRawTempC16

/-- Modelled from the spec: `getRawDelta()` (declared in the missing header)
returns the most recent single-step raw temperature change,
`prevRawTempC16[0] - prevRawTempC16[1]`. -/
def getRawDelta (s : ModelledRadValveState) : Int :=
  s.prevRawTempC16.getD 0 0 - s.prevRawTempC16.getD 1 0

/-- Modelled from the spec: `getRawDelta(m)` (declared in the missing header)
returns the raw temperature change over the last `m` ticks, with the window
clamped to the oldest stored sample of the `filterLength`-entry history. -/
def getRawDeltaM (s : ModelledRadValveState) (m : Nat) : Int :=
  s.prevRawTempC16.getD 0 0 - s.prevRawTempC16.getD (min m (filterLength - 1)) 0

/-- Modelled from the spec: `dontTurndown()` reports whether the cooldown
suppressing downward movement is still positive; that counter is the one
armed by `valveTurnup()` ("opening arms the down-cooldown"). -/
def dontTurndown (s : ModelledRadValveState) : Bool := s.valveTurnupCountdownM ≠ 0

/-- Modelled from the spec: `dontTurnup()` reports whether the cooldown
suppressing upward movement is still positive; that counter is the one
armed by `valveTurndown()` ("closing arms the up-cooldown"). -/
def dontTurnup (s : ModelledRadValveState) : Bool := s.valveTurndownCountdownM ≠ 0

/-- Modelled from the spec: `valveTurnup()` marks that the valve was opened,
arming the anti-hunt cooldown that defers re-closing. -/
def valveTurnup (s : ModelledRadValveState) : ModelledRadValveState :=
  { s with valveTurnupCountdownM := ANTISEEK_VALVE_RECLOSE_DELAY_M }

/-- Modelled from the spec: `valveTurndown()` marks that the valve was closed,
arming the anti-hunt cooldown that defers re-opening. -/
def valveTurndown (s : ModelledRadValveState) : ModelledRadValveState :=
  { s with valveTurndownCountdownM := ANTISEEK_VALVE_REOPEN_DELAY_M }

/-- The possibly-smoothed temperature used for targeting:
`isFiltering ? (getSmoothedRecent() + refTempOffsetC16) : refTempC16`. -/
def adjustedTempC16 (s : ModelledRadValveState) (i : ModelledRadValveInputState) : Int :=
  if s.isFiltering then s.getSmoothedRecent + refTempOffsetC16 else i.refTempC16

/-- `(int8_t)(adjustedTempC16 >> 4)`: whole-degree adjusted temperature. -/
def adjustedTempC (s : ModelledRadValveState) (i : ModelledRadValveInputState) : Int :=
  toInt8 ((s.adjustedTempC16 i).fdiv 16)

/-- Sub-degree bits of the adjusted temperature: `adjustedTempC16 & 0xf`. -/
def lsbitsOf (s : ModelledRadValveState) (i : ModelledRadValveInputState) : Nat :=
  ((s.adjustedTempC16 i).emod 16).toNat

/-- The proportional-band target percentage:
`constrain((16 - lsbits) * 6, minPCOpen, maxPCOpen)`. -/
def targetPOOf (s : ModelledRadValveState) (i : ModelledRadValveInputState) : Nat :=
  constrain ((16 - s.lsbitsOf i) * 6) i.minPCOpen i.maxPCOpen

/-- The window-open fast-close guard of the under-target zone
(`hasEcoBias && adjustedTempC > MIN_VALVE_TARGET_C && getRawDelta() < 0 &&
getRawDelta(MIN_WINDOW_OPEN_TEMP_FALL_M) <= -MIN_WINDOW_OPEN_TEMP_FALL_C16`). -/
abbrev windowOpenGuard (s : ModelledRadValveState) (i : ModelledRadValveInputState)
    (adjC : Int) : Prop :=
  i.hasEcoBias ∧ adjC > MIN_VALVE_TARGET_C ∧ s.getRawDelta < 0 ∧
    s.getRawDeltaM MIN_WINDOW_OPEN_TEMP_FALL_M ≤ -MIN_WINDOW_OPEN_TEMP_FALL_C16

/-- Local `vBelowTarget`: more than 1C below target. -/
abbrev vBelowTarget (adjC : Int) (i : ModelledRadValveInputState) : Prop :=
  adjC < (i.targetTempC : Int) - 1

/-- Local `beGlacial` of the under-target zone (with the
`GLACIAL_ON_WITH_WIDE_DEADBAND` configuration compiled in, as in the source). -/
abbrev beGlacialUnder (s : ModelledRadValveState) (valvePCOpen : Nat)
    (i : ModelledRadValveInputState) (adjC : Int) : Prop :=
  i.glacial ∨
    (valvePCOpen ≥ i.minPCOpen ∧ i.widenDeadband ∧ ¬ i.fastResponseRequired ∧
      ((i.hasEcoBias ∧ ¬ vBelowTarget adjC i) ∨ (s.isFiltering ∧ s.getRawDelta > 0)))

/-- Local `cappedModeratelyOpen`:
`min(maxPCOpen, min(99, DEFAULT_VALVE_PC_MODERATELY_OPEN+TRV_SLEW_PC_PER_MIN_FAST))`. -/
def cappedModeratelyOpen (i : ModelledRadValveInputState) : Nat :=
  min i.maxPCOpen (min 99 (DEFAULT_VALVE_PC_MODERATELY_OPEN + TRV_SLEW_PC_PER_MIN_FAST))

/-- Local `slewRate` of the under-target zone. -/
def slewRateUnder (valvePCOpen : Nat) (i : ModelledRadValveInputState) : Nat :=
  if valvePCOpen > DEFAULT_VALVE_PC_MODERATELY_OPEN ∨ ¬ i.widenDeadband then
    TRV_MAX_SLEW_PC_PER_MIN
  else TRV_SLEW_PC_PER_MIN_VFAST

/-- Local `minOpenFromCold`: `max(slewRate, minPCOpen)`. -/
def minOpenFromCold (valvePCOpen : Nat) (i : ModelledRadValveInputState) : Nat :=
  max (slewRateUnder valvePCOpen i) i.minPCOpen

/-- The under-target ("open valve up") zone of
`computeRequiredTRVPercentOpen`, for `adjustedTempC < targetTempC`. -/
def computeUnder (s : ModelledRadValveState) (valvePCOpen : Nat)
    (i : ModelledRadValveInputState) (adjC : Int) : Nat :=
  if i.inBakeMode then i.maxPCOpen
  else if windowOpenGuard s i adjC then
    (if ¬ s.dontTurndown then
      (if valvePCOpen ≥ DEFAULT_VALVE_PC_SAFER_OPEN then DEFAULT_VALVE_PC_SAFER_OPEN - 1
       else if valvePCOpen > TRV_MAX_SLEW_PC_PER_MIN then valvePCOpen - TRV_MAX_SLEW_PC_PER_MIN
       else 0)
     else valvePCOpen)
  else if valvePCOpen < i.maxPCOpen then
    (if s.dontTurnup then valvePCOpen
     else if beGlacialUnder s valvePCOpen i adjC then valvePCOpen + 1
     else if valvePCOpen < cappedModeratelyOpen i ∧
         (i.fastResponseRequired ∨ (vBelowTarget adjC i ∧ ¬ i.widenDeadband)) then
       cappedModeratelyOpen i
     else if valvePCOpen < minOpenFromCold valvePCOpen i then minOpenFromCold valvePCOpen i
     else min ((valvePCOpen + slewRateUnder valvePCOpen i) % 256) i.maxPCOpen)
  else i.maxPCOpen

/-- Local `justOverTemp`: exactly one degree above the proportional range. -/
abbrev justOverTemp (adjC : Int) (i : ModelledRadValveInputState) : Prop :=
  adjC = (i.targetTempC : Int) + 1

/-- Local `lingerThreshold`: `minPCOpen > 0 ? minPCOpen-1 : 0`. -/
def lingerThreshold (i : ModelledRadValveInputState) : Nat :=
  if i.minPCOpen > 0 then i.minPCOpen - 1 else 0

/-- The over-target ("close valve down") zone of
`computeRequiredTRVPercentOpen`, for `adjustedTempC > targetTempC`. -/
def computeOver (s : ModelledRadValveState) (valvePCOpen : Nat)
    (i : ModelledRadValveInputState) (adjC : Int) : Nat :=
  if valvePCOpen ≠ 0 then
    (if s.dontTurndown then valvePCOpen
     else if justOverTemp adjC i ∧ i.widenDeadband ∧ s.getRawDelta < 0 then valvePCOpen
     else if justOverTemp adjC i ∧ s.isFiltering then valvePCOpen - 1
     else if valvePCOpen < i.minPCOpen then
       (if DEFAULT_MAX_RUN_ON_TIME_M < i.minPCOpen ∧
           valvePCOpen < i.minPCOpen - DEFAULT_MAX_RUN_ON_TIME_M then 0
        else valvePCOpen - 1)
     else if ((¬ i.hasEcoBias) ∨ justOverTemp adjC i ∨ s.isFiltering) ∧
         (¬ i.fastResponseRequired) ∧
         valvePCOpen >
           constrain (lingerThreshold i + TRV_SLEW_PC_PER_MIN_FAST)
             TRV_SLEW_PC_PER_MIN_FAST i.maxPCOpen then
       valvePCOpen - TRV_SLEW_PC_PER_MIN_FAST
     else lingerThreshold i)
  else 0

/-- Local `realMinUlp`: `1 + ulpStep` with `ulpStep = 6`. -/
def realMinUlp : Nat := 1 + 6

/-- Local `minAbsSlew`: `max(realMinUlp, _minAbsSlew)`, the deadband of the
proportional band (widened when `widenDeadband` is set). -/
def minAbsSlewOf (i : ModelledRadValveInputState) : Nat :=
  max realMinUlp
    (if i.widenDeadband then
      max (min (DEFAULT_VALVE_PC_MODERATELY_OPEN / 2)
            (max TRV_MAX_SLEW_PC_PER_MIN (2 * TRV_MIN_SLEW_PC)))
        (2 + TRV_MIN_SLEW_PC)
     else TRV_MIN_SLEW_PC)

/-- Local `beGlacial` of the closing half of the proportional band. -/
abbrev beGlacialClose (s : ModelledRadValveState) (valvePCOpen : Nat)
    (i : ModelledRadValveInputState) : Prop :=
  i.glacial ∨
    ((i.widenDeadband ∨ s.isFiltering) ∧ valvePCOpen ≤ DEFAULT_VALVE_PC_MODERATELY_OPEN) ∨
    s.lsbitsOf i < 8

/-- Local `beGlacial` of the opening half of the proportional band. -/
abbrev beGlacialOpen (s : ModelledRadValveState) (valvePCOpen : Nat)
    (i : ModelledRadValveInputState) : Prop :=
  i.glacial ∨ i.widenDeadband ∨ s.lsbitsOf i ≥ 8 ∨
    (s.lsbitsOf i ≥ 4 ∧ valvePCOpen > DEFAULT_VALVE_PC_MODERATELY_OPEN)

/-- Local `maxSlew` of the opening half: fast without eco bias. -/
def maxSlewOpen (i : ModelledRadValveInputState) : Nat :=
  if ¬ i.hasEcoBias then TRV_SLEW_PC_PER_MIN_FAST else TRV_MAX_SLEW_PC_PER_MIN

/-- The at-target (proportional band) zone of `computeRequiredTRVPercentOpen`. -/
def computeAtTarget (s : ModelledRadValveState) (valvePCOpen : Nat)
    (i : ModelledRadValveInputState) : Nat :=
  if s.targetPOOf i ≠ valvePCOpen then
    (if s.targetPOOf i < valvePCOpen then
      (if valvePCOpen - s.targetPOOf i < minAbsSlewOf i then valvePCOpen
       else if s.dontTurndown then valvePCOpen
       else if s.getRawDelta ≤ 0 then valvePCOpen
       else if beGlacialClose s valvePCOpen i then valvePCOpen - 1
       else if valvePCOpen - s.targetPOOf i > TRV_SLEW_PC_PER_MIN_FAST then
         valvePCOpen - TRV_SLEW_PC_PER_MIN_FAST
       else s.targetPOOf i)
     else
      (if i.inBakeMode then i.maxPCOpen
       else if s.targetPOOf i - valvePCOpen < minAbsSlewOf i then valvePCOpen
       else if s.dontTurnup then valvePCOpen
       else if s.getRawDelta > 0 then valvePCOpen
       else if s.lsbitsOf i ≥ (if i.widenDeadband then 8 else 12) then valvePCOpen
       else if beGlacialOpen s valvePCOpen i then valvePCOpen + 1
       else if s.targetPOOf i - valvePCOpen > maxSlewOpen i then valvePCOpen + maxSlewOpen i
       else s.targetPOOf i))
  else valvePCOpen

/-- `computeRequiredTRVPercentOpen`: the pure decision procedure mapping
(state, current percent, input snapshot) to the new valve percentage. -/
def computeRequiredTRVPercentOpen (s : ModelledRadValveState) (valvePCOpen : Nat)
    (i : ModelledRadValveInputState) : Nat :=
  if s.adjustedTempC i < (i.targetTempC : Int) then s.computeUnder valvePCOpen i (s.adjustedTempC i)
  else if s.adjustedTempC i > (i.targetTempC : Int) then
    s.computeOver valvePCOpen i (s.adjustedTempC i)
  else s.computeAtTarget valvePCOpen i

/-- History maintenance at the start of `tick`: lazy fill of the whole buffer
with the current reading on the very first call, then the shift-in of the
latest raw sample (`raw :: first (filterLength-1) old entries`). -/
def tickHistory (s : ModelledRadValveState) (raw : Int) : ModelledRadValveState :=
  let s0 := if s.initialised then s
    else { s with prevRawTempC16 := List.replicate filterLength raw, initialised := true }
  { s0 with prevRawTempC16 := raw :: s0.prevRawTempC16.take (filterLength - 1) }

/-- `true` iff some adjacent pair of the history differs by more than
`MAX_TEMP_JUMP_C16` (the activation scan of the filter). -/
def anyBigJump : List Int → Bool
  | a :: b :: rest => decide ((a - b).natAbs > MAX_TEMP_JUMP_C16) || anyBigJump (b :: rest)
  | _ => false

/-- Filter engagement update (run on the post-shift state, whose head entry is
this tick's raw sample): first the exit test
(`abs(getSmoothedRecent() - raw) <= MAX_TEMP_JUMP_C16` turns filtering off),
then, if filtering is (now) off, the adjacent-pair activation scan. -/
def updateFilter (s : ModelledRadValveState) : ModelledRadValveState :=
  let raw := s.prevRawTempC16.getD 0 0
  let f1 : Bool := if s.isFiltering ∧ (s.getSmoothedRecent - raw).natAbs ≤ MAX_TEMP_JUMP_C16
    then false else s.isFiltering
  let f2 : Bool := if ¬ f1 ∧ anyBigJump s.prevRawTempC16 then true else f1
  { s with isFiltering := f2 }

/-- Count down both anti-hunt timers toward zero (no-op at zero). -/
def decCooldowns (s : ModelledRadValveState) : ModelledRadValveState :=
  { s with valveTurndownCountdownM := s.valveTurndownCountdownM - 1,
           valveTurnupCountdownM := s.valveTurnupCountdownM - 1 }

/-- The state `tick` has built just before invoking the decision procedure:
history shifted, filter re-evaluated, cooldowns decremented. -/
def preState (s : ModelledRadValveState) (i : ModelledRadValveInputState) :
    ModelledRadValveState :=
  decCooldowns (updateFilter (tickHistory s (i.refTempC16 - refTempOffsetC16)))

/-- `tick(valvePCOpenRef, inputState)`: returns the updated state together
with the updated valve percentage.  On a change of percentage the cooldown of
the opposite direction is armed and the movement magnitude added to the
cumulative counter; `valveMoved` records whether a move occurred. -/
def tick (s : ModelledRadValveState) (valvePCOpen : Nat)
    (i : ModelledRadValveInputState) : ModelledRadValveState × Nat :=
  let mid := preState s i
  let newValvePC := mid.computeRequiredTRVPercentOpen valvePCOpen i
  if newValvePC ≠ valvePCOpen then
    (if newValvePC > valvePCOpen then
      ({ mid.valveTurnup with
          cumulativeMovementPC := mid.cumulativeMovementPC + (newValvePC - valvePCOpen),
          valveMoved := true }, newValvePC)
     else
      ({ mid.valveTurndown with
          cumulativeMovementPC := mid.cumulativeMovementPC + (valvePCOpen - newValvePC),
          valveMoved := true }, newValvePC))
  else ({ mid with valveMoved := false }, valvePCOpen)

/-- Iterated ticks with a fixed input snapshot: `tickIter s pc i n` is the
(state, percent) pair after `n` consecutive ticks starting from `(s, pc)`. -/
def tickIter (s : ModelledRadValveState) (pc : Nat) (i : ModelledRadValveInputState) :
    Nat → ModelledRadValveState × Nat
  | 0 => (s, pc)
  | n + 1 =>
    let r := tickIter s pc i n
    tick r.1 r.2 i

end ModelledRadValveState

/-- The specification's own description of the smoothing ("arithmetic mean of
all N entries, rounded to nearest integer with ties rounding up"): that
rounding of `sum/N` is `floor(sum/N + 1/2) = floor((sum + N/2)/N)`, here with
the mathematical (floor) integer division.  Stated from the spec's words, for
comparison against the implementation's `smallIntMean`. -/
def specNearestMean (data : List Int) : Int :=
  Int.fdiv (data.sum + Int.ofNat (filterLength / 2)) (Int.ofNat filterLength)

section ConcreteStates

open ModelledRadValveState

/-- A freshly constructed control state (nothing initialised, no cooldowns). -/
def freshState : ModelledRadValveState :=
  { prevRawTempC16 := [], initialised := false, isFiltering := false,
    valveTurndownCountdownM := 0, valveTurnupCountdownM := 0,
    cumulativeMovementPC := 0, valveMoved := false }

/-- Input snapshot: target 20C, raw temperature 15C (reference 248 C16),
bounds [10,100], no mode flags. -/
def inputCold : ModelledRadValveInputState :=
  { targetTempC := 20, minPCOpen := 10, maxPCOpen := 100,
    widenDeadband := false, glacial := false, hasEcoBias := false,
    inBakeMode := false, fastResponseRequired := false, refTempC16 := 248 }

/-- The same cold snapshot with the allowed maximum reduced to 40%. -/
def inputColdMax40 : ModelledRadValveInputState := { inputCold with maxPCOpen := 40 }

/-- The same cold snapshot with bake mode engaged. -/
def inputColdBake : ModelledRadValveInputState := { inputCold with inBakeMode := true }

/-- A state whose history shows a steady fall (most-recent-first 300..330). -/
def fallingState : ModelledRadValveState :=
  { prevRawTempC16 := [300, 310, 320, 330], initialised := true, isFiltering := false,
    valveTurndownCountdownM := 0, valveTurnupCountdownM := 0,
    cumulativeMovementPC := 0, valveMoved := false }

/-- Eco-bias snapshot under target (target 22C, raw 290 C16 = 18.125C). -/
def inputEcoFalling : ModelledRadValveInputState :=
  { targetTempC := 22, minPCOpen := 10, maxPCOpen := 100,
    widenDeadband := false, glacial := false, hasEcoBias := true,
    inBakeMode := false, fastResponseRequired := false, refTempC16 := 298 }

/-- Eco-bias falling snapshot with bake mode also engaged. -/
def inputEcoFallingBake : ModelledRadValveInputState :=
  { inputEcoFalling with inBakeMode := true }

/-- Steady history at 339 C16, no cooldowns, filter off. -/
def steadyState339 : ModelledRadValveState :=
  { prevRawTempC16 := [339, 339, 339, 339], initialised := true, isFiltering := false,
    valveTurndownCountdownM := 0, valveTurnupCountdownM := 0,
    cumulativeMovementPC := 0, valveMoved := false }

/-- Snapshot one degree over target with a widened deadband
(target 20C, raw 336 C16, so the adjusted temperature is 21C). -/
def inputJustOverWiden : ModelledRadValveInputState :=
  { targetTempC := 20, minPCOpen := 10, maxPCOpen := 100,
    widenDeadband := true, glacial := false, hasEcoBias := false,
    inBakeMode := false, fastResponseRequired := false, refTempC16 := 344 }

/-- Snapshot two degrees over target (raw 352 C16, adjusted 22C vs target 20). -/
def inputWellOver : ModelledRadValveInputState :=
  { targetTempC := 20, minPCOpen := 10, maxPCOpen := 100,
    widenDeadband := false, glacial := false, hasEcoBias := false,
    inBakeMode := false, fastResponseRequired := false, refTempC16 := 360 }

/-- Steady state with the re-close-deferral cooldown (armed by an earlier
opening) still counting down. -/
def steadyState339Armed : ModelledRadValveState :=
  { steadyState339 with valveTurnupCountdownM := 2 }

/-- Fresh state with the re-close-deferral cooldown armed. -/
def freshStateArmed : ModelledRadValveState := { freshState with valveTurnupCountdownM := 3 }

/-- A filtering state whose history still contains one anomalous sample
(most-recent-first [340, 312, 312, 312]). -/
def filteringSpikeState : ModelledRadValveState :=
  { prevRawTempC16 := [340, 312, 312, 312], initialised := true, isFiltering := true,
    valveTurndownCountdownM := 0, valveTurnupCountdownM := 0,
    cumulativeMovementPC := 0, valveMoved := false }

/-- Snapshot at target 20C with raw 312 C16 (reference 320 C16 = exactly 20C). -/
def inputAtTarget320 : ModelledRadValveInputState :=
  { targetTempC := 20, minPCOpen := 10, maxPCOpen := 100,
    widenDeadband := false, glacial := false, hasEcoBias := false,
    inBakeMode := false, fastResponseRequired := false, refTempC16 := 320 }

/-- Steady history at 319 C16 (raw for a 327 C16 reference), filter off. -/
def steadyState319 : ModelledRadValveState :=
  { prevRawTempC16 := [319, 319, 319, 319], initialised := true, isFiltering := false,
    valveTurndownCountdownM := 0, valveTurnupCountdownM := 0,
    cumulativeMovementPC := 0, valveMoved := false }

/-- Snapshot at target 20C, reference 327 C16 (sub-degree bits 7). -/
def inputAtTarget327 : ModelledRadValveInputState :=
  { targetTempC := 20, minPCOpen := 10, maxPCOpen := 100,
    widenDeadband := false, glacial := false, hasEcoBias := false,
    inBakeMode := false, fastResponseRequired := false, refTempC16 := 327 }

/-- A post-shift history with one adjacent jump of 10 C16 units. -/
def jumpState : ModelledRadValveState :=
  { prevRawTempC16 := [350, 340, 340, 340], initialised := true, isFiltering := false,
    valveTurndownCountdownM := 0, valveTurnupCountdownM := 0,
    cumulativeMovementPC := 0, valveMoved := false }

/-- A history with a negative sum (temperatures just below 0C). -/
def negativeSumState : ModelledRadValveState :=
  { prevRawTempC16 := [-5, 0, 0, 0], initialised := true, isFiltering := false,
    valveTurndownCountdownM := 0, valveTurnupCountdownM := 0,
    cumulativeMovementPC := 0, valveMoved := false }

/-- A history whose sum is nonnegative, for the amended mean claim. -/
def positiveSumState : ModelledRadValveState :=
  { prevRawTempC16 := [321, 319, 320, 320], initialised := true, isFiltering := false,
    valveTurndownCountdownM := 0, valveTurnupCountdownM := 0,
    cumulativeMovementPC := 0, valveMoved := false }

end ConcreteStates

end OTRadValve

open OTRadValve ModelledRadValveState

/-! ## Helper lemmas -/

/-- The percentage committed by `tick` is exactly the value the decision
procedure returns on the mid-tick state. -/
theorem tick_snd (s : ModelledRadValveState) (pc : Nat) (i : ModelledRadValveInputState) :
    (tick s pc i).2 = (preState s i).computeRequiredTRVPercentOpen pc i := by
  simp only [tick]
  split_ifs with h1 h2
  · rfl
  · rfl
  · exact (not_ne_iff.mp h1).symm

set_option maxHeartbeats 1000000 in
/-- Every branch of the under-target zone stays within [0,100]. -/
theorem computeUnder_le_100 (s : ModelledRadValveState) (pc : Nat)
    (i : ModelledRadValveInputState) (adjC : Int) (hb : i.minPCOpen ≤ i.maxPCOpen)
    (hm : i.maxPCOpen ≤ 100) (hpc : pc ≤ 100) :
    s.computeUnder pc i adjC ≤ 100 := by
  have c1 : TRV_MAX_SLEW_PC_PER_MIN = 5 := rfl
  have c2 : TRV_SLEW_PC_PER_MIN_FAST = 10 := rfl
  have c3 : TRV_SLEW_PC_PER_MIN_VFAST = 20 := rfl
  have c5 : DEFAULT_VALVE_PC_SAFER_OPEN = 50 := rfl
  have c6 : DEFAULT_VALVE_PC_MODERATELY_OPEN = 35 := rfl
  simp only [computeUnder, cappedModeratelyOpen, minOpenFromCold, slewRateUnder]
  split_ifs <;> omega

set_option maxHeartbeats 1000000 in
/-- Every branch of the over-target zone stays within [0,100]. -/
theorem computeOver_le_100 (s : ModelledRadValveState) (pc : Nat)
    (i : ModelledRadValveInputState) (adjC : Int) (hb : i.minPCOpen ≤ i.maxPCOpen)
    (hm : i.maxPCOpen ≤ 100) (hpc : pc ≤ 100) :
    s.computeOver pc i adjC ≤ 100 := by
  have c2 : TRV_SLEW_PC_PER_MIN_FAST = 10 := rfl
  have c7 : DEFAULT_MAX_RUN_ON_TIME_M = 5 := rfl
  simp only [computeOver, lingerThreshold, constrain]
  split_ifs <;> omega

set_option maxHeartbeats 1000000 in
/-- Every branch of the proportional band stays within [0,100]. -/
theorem computeAtTarget_le_100 (s : ModelledRadValveState) (pc : Nat)
    (i : ModelledRadValveInputState) (hb : i.minPCOpen ≤ i.maxPCOpen)
    (hm : i.maxPCOpen ≤ 100) (hpc : pc ≤ 100) :
    s.computeAtTarget pc i ≤ 100 := by
  have c1 : TRV_MAX_SLEW_PC_PER_MIN = 5 := rfl
  have c2 : TRV_SLEW_PC_PER_MIN_FAST = 10 := rfl
  have c4 : TRV_MIN_SLEW_PC = 7 := rfl
  have c6 : DEFAULT_VALVE_PC_MODERATELY_OPEN = 35 := rfl
  have h1 : s.targetPOOf i ≤ 100 := by
    simp only [targetPOOf, constrain]
    split_ifs <;> omega
  simp only [computeAtTarget, minAbsSlewOf, maxSlewOpen, realMinUlp]
  split_ifs <;> omega

set_option maxHeartbeats 1000000 in
/-- The decision procedure always returns a value within [0,100] for
well-formed inputs. -/
theorem computeRequired_le_100 (s : ModelledRadValveState) (pc : Nat)
    (i : ModelledRadValveInputState) (hb : i.minPCOpen ≤ i.maxPCOpen)
    (hm : i.maxPCOpen ≤ 100) (hpc : pc ≤ 100) :
    s.computeRequiredTRVPercentOpen pc i ≤ 100 := by
  unfold computeRequiredTRVPercentOpen
  split_ifs
  · exact computeUnder_le_100 s pc i _ hb hm hpc
  · exact computeOver_le_100 s pc i _ hb hm hpc
  · exact computeAtTarget_le_100 s pc i hb hm hpc

/-- The under-zone slew rate is at most the very-fast rate (20%/min). -/
theorem slewRateUnder_le (pc : Nat) (i : ModelledRadValveInputState) :
    slewRateUnder pc i ≤ 20 := by
  have c1 : TRV_MAX_SLEW_PC_PER_MIN = 5 := rfl
  have c3 : TRV_SLEW_PC_PER_MIN_VFAST = 20 := rfl
  unfold slewRateUnder
  split_ifs <;> omega

/-- The linger threshold never exceeds `minPCOpen`. -/
theorem lingerThreshold_le (i : ModelledRadValveInputState) :
    lingerThreshold i ≤ i.minPCOpen := by
  unfold lingerThreshold
  split_ifs <;> omega

set_option maxHeartbeats 1000000 in
/-- With the turn-down cooldown armed, the under-target zone never lowers the
percentage (the window-open branch holds, everything else opens). -/
theorem le_computeUnder_of_dontTurndown (s : ModelledRadValveState) (pc : Nat)
    (i : ModelledRadValveInputState) (adjC : Int) (hd : s.dontTurndown = true)
    (hpc : pc ≤ i.maxPCOpen) (hm : i.maxPCOpen ≤ 100) :
    pc ≤ s.computeUnder pc i adjC := by
  have hsl := slewRateUnder_le pc i
  unfold computeUnder
  split_ifs <;>
    first
      | omega
      | exact absurd hd (by assumption)
      | exact Nat.le_of_lt (And.left (by assumption))

set_option maxHeartbeats 1000000 in
/-- With the turn-down cooldown armed, the over-target zone holds position. -/
theorem le_computeOver_of_dontTurndown (s : ModelledRadValveState) (pc : Nat)
    (i : ModelledRadValveInputState) (adjC : Int) (hd : s.dontTurndown = true) :
    pc ≤ s.computeOver pc i adjC := by
  unfold computeOver
  split_ifs <;>
    first
      | omega
      | exact absurd hd (by assumption)

set_option maxHeartbeats 1000000 in
/-- With the turn-down cooldown armed, the proportional band never lowers the
percentage. -/
theorem le_computeAtTarget_of_dontTurndown (s : ModelledRadValveState) (pc : Nat)
    (i : ModelledRadValveInputState) (hd : s.dontTurndown = true)
    (hpc : pc ≤ i.maxPCOpen) :
    pc ≤ s.computeAtTarget pc i := by
  unfold computeAtTarget
  split_ifs <;>
    first
      | omega
      | exact absurd hd (by assumption)

set_option maxHeartbeats 1000000 in
/-- With the turn-down cooldown armed and the current percentage within the
allowed maximum, the decision procedure never lowers the percentage. -/
theorem le_compute_of_dontTurndown (s : ModelledRadValveState) (pc : Nat)
    (i : ModelledRadValveInputState) (hd : s.dontTurndown = true)
    (hpc : pc ≤ i.maxPCOpen) (hm : i.maxPCOpen ≤ 100) :
    pc ≤ s.computeRequiredTRVPercentOpen pc i := by
  unfold computeRequiredTRVPercentOpen
  split_ifs
  · exact le_computeUnder_of_dontTurndown s pc i _ hd hpc hm
  · exact le_computeOver_of_dontTurndown s pc i _ hd
  · exact le_computeAtTarget_of_dontTurndown s pc i hd hpc

set_option maxHeartbeats 1000000 in
/-- With the turn-up cooldown armed and bake mode off, the under-target zone
never raises the percentage. -/
theorem computeUnder_le_of_dontTurnup (s : ModelledRadValveState) (pc : Nat)
    (i : ModelledRadValveInputState) (adjC : Int) (hu : s.dontTurnup = true)
    (hbk : i.inBakeMode = false) :
    s.computeUnder pc i adjC ≤ pc := by
  unfold computeUnder
  split_ifs <;>
    first
      | omega
      | exact absurd hu (by assumption)
      | (rename_i hcontra; rw [hbk] at hcontra; exact absurd hcontra (by simp))

set_option maxHeartbeats 1000000 in
/-- The over-target zone never raises the percentage at all. -/
theorem computeOver_le_of_dontTurnup (s : ModelledRadValveState) (pc : Nat)
    (i : ModelledRadValveInputState) (adjC : Int) :
    s.computeOver pc i adjC ≤ pc := by
  have hlt := lingerThreshold_le i
  unfold computeOver
  split_ifs <;> omega

set_option maxHeartbeats 1000000 in
/-- With the turn-up cooldown armed and bake mode off, the proportional band
never raises the percentage. -/
theorem computeAtTarget_le_of_dontTurnup (s : ModelledRadValveState) (pc : Nat)
    (i : ModelledRadValveInputState) (hu : s.dontTurnup = true)
    (hbk : i.inBakeMode = false) :
    s.computeAtTarget pc i ≤ pc := by
  unfold computeAtTarget
  split_ifs <;>
    first
      | omega
      | exact absurd hu (by assumption)
      | (rename_i hcontra; rw [hbk] at hcontra; exact absurd hcontra (by simp))

set_option maxHeartbeats 1000000 in
/-- With the turn-up cooldown armed and bake mode off, the decision procedure
never raises the percentage. -/
theorem compute_le_of_dontTurnup (s : ModelledRadValveState) (pc : Nat)
    (i : ModelledRadValveInputState) (hu : s.dontTurnup = true)
    (hbk : i.inBakeMode = false) :
    s.computeRequiredTRVPercentOpen pc i ≤ pc := by
  unfold computeRequiredTRVPercentOpen
  split_ifs
  · exact computeUnder_le_of_dontTurnup s pc i _ hu hbk
  · exact computeOver_le_of_dontTurnup s pc i _
  · exact computeAtTarget_le_of_dontTurnup s pc i hu hbk

/-- A tick that raises the percentage arms the re-close-deferral counter. -/
theorem tick_arms_turndown_cooldown (s : ModelledRadValveState) (pc : Nat)
    (i : ModelledRadValveInputState) (h : pc < (tick s pc i).2) :
    (tick s pc i).1.valveTurnupCountdownM = ANTISEEK_VALVE_RECLOSE_DELAY_M := by
  have hs := tick_snd s pc i
  simp only [tick] at h ⊢
  split_ifs at h ⊢ with h1 h2
  · rfl
  · omega
  · omega

/-- A tick that lowers the percentage arms the re-open-deferral counter. -/
theorem tick_arms_turnup_cooldown (s : ModelledRadValveState) (pc : Nat)
    (i : ModelledRadValveInputState) (h : (tick s pc i).2 < pc) :
    (tick s pc i).1.valveTurndownCountdownM = ANTISEEK_VALVE_REOPEN_DELAY_M := by
  have hs := tick_snd s pc i
  simp only [tick] at h ⊢
  split_ifs at h ⊢ with h1 h2
  · omega
  · rfl
  · omega

/-! ## Claim theorems -/

/-- C1: for every input snapshot with `0 ≤ minPCOpen ≤ maxPCOpen ≤ 100` and
every current valve percent in [0,100], the percent value after a tick (the
value `computeRequiredTRVPercentOpen` returns and `tick` commits) lies in
[0,100].  (The lower bound holds by the `Nat` representation of the
`uint8_t` percentage; the upper bound is proved.) -/
theorem claim_C1_percent_in_range (s : ModelledRadValveState) (pc : Nat)
    (i : ModelledRadValveInputState) (hb : i.minPCOpen ≤ i.maxPCOpen)
    (hm : i.maxPCOpen ≤ 100) (hpc : pc ≤ 100) :
    (tick s pc i).2 ≤ 100 := by
  rw [tick_snd]
  exact computeRequired_le_100 _ pc i hb hm hpc

/-- Witness for C1 at a concrete cold-start tick. -/
theorem claim_C1_percent_in_range_witness :
    inputCold.minPCOpen ≤ inputCold.maxPCOpen ∧ inputCold.maxPCOpen ≤ 100 ∧
      (tick freshState 0 inputCold).2 ≤ 100 :=
  ⟨by decide, by decide,
    claim_C1_percent_in_range freshState 0 inputCold (by decide) (by decide) (by decide)⟩

/-- C2: with `inBakeMode = true`, whenever the adjusted temperature is under
target — or at target with an opening need (`targetPO` above the current
percent, the only earlier hold test on that path) — a single tick sets the
percent to `maxPCOpen`, regardless of cooldowns, filtering and bias flags
(all universally quantified here). -/
theorem claim_C2_bake_override (s : ModelledRadValveState) (pc : Nat)
    (i : ModelledRadValveInputState) (hbk : i.inBakeMode = true)
    (h : (preState s i).adjustedTempC i < (i.targetTempC : Int) ∨
      ((preState s i).adjustedTempC i = (i.targetTempC : Int) ∧
        pc < (preState s i).targetPOOf i)) :
    (tick s pc i).2 = i.maxPCOpen := by
  rw [tick_snd]
  rcases h with hU | ⟨hT, hPO⟩
  · unfold computeRequiredTRVPercentOpen
    rw [if_pos hU]
    unfold computeUnder
    rw [if_pos hbk]
  · unfold computeRequiredTRVPercentOpen
    rw [if_neg (by omega), if_neg (by omega)]
    unfold computeAtTarget
    rw [if_pos (by omega : (preState s i).targetPOOf i ≠ pc)]
    rw [if_neg (by omega : ¬ (preState s i).targetPOOf i < pc)]
    rw [if_pos hbk]

/-- Witness for C2: bake mode from cold drives the valve to `maxPCOpen`. -/
theorem claim_C2_bake_override_witness :
    (tick freshState 0 inputColdBake).2 = inputColdBake.maxPCOpen :=
  claim_C2_bake_override freshState 0 inputColdBake (by decide) (Or.inl (by decide))

/-- C3: in the under-target zone with bake off, when `hasEcoBias` is set, the
adjusted temperature is above the frost floor, the last raw delta is
negative and the fall over the last 10 ticks is at least 1C, a tick returns
`DEFAULT_VALVE_PC_SAFER_OPEN - 1` if the percent is at/above that threshold,
else steps down by the maximum normal slew rate if the percent exceeds it,
else 0 — and holds the current percent when the turn-down cooldown is armed. -/
theorem claim_C3_window_open_fast_close (s : ModelledRadValveState) (pc : Nat)
    (i : ModelledRadValveInputState) (hbk : i.inBakeMode = false)
    (hU : (preState s i).adjustedTempC i < (i.targetTempC : Int))
    (heco : i.hasEcoBias = true)
    (hfrost : MIN_VALVE_TARGET_C < (preState s i).adjustedTempC i)
    (hfall : (preState s i).getRawDelta < 0)
    (hfall10 : (preState s i).getRawDeltaM MIN_WINDOW_OPEN_TEMP_FALL_M ≤
      -MIN_WINDOW_OPEN_TEMP_FALL_C16) :
    (tick s pc i).2 =
      if (preState s i).dontTurndown then pc
      else if pc ≥ DEFAULT_VALVE_PC_SAFER_OPEN then DEFAULT_VALVE_PC_SAFER_OPEN - 1
      else if pc > TRV_MAX_SLEW_PC_PER_MIN then pc - TRV_MAX_SLEW_PC_PER_MIN
      else 0 := by
  rw [tick_snd]
  unfold computeRequiredTRVPercentOpen
  rw [if_pos hU]
  unfold computeUnder
  rw [if_neg (by simp [hbk]), if_pos ⟨heco, hfrost, hfall, hfall10⟩]
  by_cases hdd : (preState s i).dontTurndown = true
  · rw [if_neg (not_not_intro hdd), if_pos hdd]
  · rw [if_pos hdd, if_neg hdd]

/-- Witness for C3: a sharp sustained fall steps the valve from 80% to 49%. -/
theorem claim_C3_window_open_fast_close_witness :
    (tick fallingState 80 inputEcoFalling).2 = 49 :=
  (claim_C3_window_open_fast_close fallingState 80 inputEcoFalling (by decide) (by decide)
    (by decide) (by decide) (by decide) (by decide)).trans (by decide)

/-- C4 counterexample: a tick that raises the percent (0% to 45%) arms the
turn-down cooldown, and that cooldown is still armed at the next tick's
decision point; yet the next tick (whose snapshot lowers `maxPCOpen` to 40)
lowers the percent instead of holding it, so "any following tick whose
decision logic would otherwise decrease the percent holds the current
position" fails as stated. -/
theorem claim_C4_counterexample :
    0 < (tick freshState 0 inputCold).2
    ∧ (tick freshState 0 inputCold).1.dontTurndown = true
    ∧ (preState (tick freshState 0 inputCold).1 inputColdMax40).dontTurndown = true
    ∧ (tick (tick freshState 0 inputCold).1 (tick freshState 0 inputCold).2 inputColdMax40).2
        < (tick freshState 0 inputCold).2 := by decide

/-- C4 (amended): a tick that raises the percent arms the turn-down cooldown
and one that lowers it arms the turn-up cooldown; while the turn-down
cooldown is armed a tick never lowers the percent provided the current
percent does not exceed `maxPCOpen` (the clamp to `maxPCOpen` applies
regardless of cooldowns); while the turn-up cooldown is armed a tick never
raises the percent unless bake mode is engaged (bake overrides cooldowns). -/
theorem claim_C4_anti_hunt_amended (s : ModelledRadValveState)
    (i : ModelledRadValveInputState) (pc : Nat) :
    (pc < (tick s pc i).2 → (tick s pc i).1.dontTurndown = true)
    ∧ ((tick s pc i).2 < pc → (tick s pc i).1.dontTurnup = true)
    ∧ ((preState s i).dontTurndown = true → pc ≤ i.maxPCOpen → i.maxPCOpen ≤ 100 →
        pc ≤ (tick s pc i).2)
    ∧ ((preState s i).dontTurnup = true → i.inBakeMode = false → (tick s pc i).2 ≤ pc) := by
  refine ⟨?_, ?_, ?_, ?_⟩
  · intro h
    have ha := tick_arms_turndown_cooldown s pc i h
    simp [dontTurndown, ha, ANTISEEK_VALVE_RECLOSE_DELAY_M]
  · intro h
    have ha := tick_arms_turnup_cooldown s pc i h
    simp [dontTurnup, ha, ANTISEEK_VALVE_REOPEN_DELAY_M]
  · intro hd h1 h2
    rw [tick_snd]
    exact le_compute_of_dontTurndown _ pc i hd h1 h2
  · intro hu hbk
    rw [tick_snd]
    exact compute_le_of_dontTurnup _ pc i hu hbk

/-- Witness for the amended C4: the cold-start opening tick arms the
turn-down cooldown, and a tick whose armed turn-down cooldown meets an
over-target state holds at 50%. -/
theorem claim_C4_anti_hunt_amended_witness :
    (tick freshState 0 inputCold).1.dontTurndown = true
    ∧ 50 ≤ (tick steadyState339Armed 50 inputWellOver).2 :=
  ⟨(claim_C4_anti_hunt_amended freshState inputCold 0).1 (by decide),
   (claim_C4_anti_hunt_amended steadyState339Armed inputWellOver 50).2.2.1 (by decide)
     (by decide) (by decide)⟩

/-- C8: over target by exactly one degree with a nonzero percent, turn-down
not suppressed, a widened deadband and a falling last raw delta, the tick
holds the current percent. -/
theorem claim_C8_just_over_hold (s : ModelledRadValveState) (pc : Nat)
    (i : ModelledRadValveInputState) (hpcnz : pc ≠ 0)
    (hdd : (preState s i).dontTurndown = false)
    (hJ : (preState s i).adjustedTempC i = (i.targetTempC : Int) + 1)
    (hw : i.widenDeadband = true)
    (hfall : (preState s i).getRawDelta < 0) :
    (tick s pc i).2 = pc := by
  rw [tick_snd]
  unfold computeRequiredTRVPercentOpen
  rw [if_neg (by omega), if_pos (by omega)]
  unfold computeOver
  rw [if_pos hpcnz, if_neg (by simp [hdd]), if_pos ⟨hJ, hw, hfall⟩]

/-- Witness for C8: 21C adjusted vs 20C target, widened deadband, falling,
holds 50%. -/
theorem claim_C8_just_over_hold_witness :
    (tick steadyState339 50 inputJustOverWiden).2 = 50 :=
  claim_C8_just_over_hold steadyState339 50 inputJustOverWiden (by decide) (by decide)
    (by decide) (by decide) (by decide)

/-- C9: in the under-target zone with bake off and the window-open guard not
triggered, any current percent at or above `maxPCOpen` is returned as
exactly `maxPCOpen` in a single tick — even while the turn-down cooldown is
armed (the cooldowns are universally quantified here). -/
theorem claim_C9_clamp_to_max (s : ModelledRadValveState) (pc : Nat)
    (i : ModelledRadValveInputState) (hbk : i.inBakeMode = false)
    (hU : (preState s i).adjustedTempC i < (i.targetTempC : Int))
    (hng : ¬ (i.hasEcoBias = true ∧ MIN_VALVE_TARGET_C < (preState s i).adjustedTempC i ∧
      (preState s i).getRawDelta < 0 ∧
      (preState s i).getRawDeltaM MIN_WINDOW_OPEN_TEMP_FALL_M ≤ -MIN_WINDOW_OPEN_TEMP_FALL_C16))
    (hge : i.maxPCOpen ≤ pc) :
    (tick s pc i).2 = i.maxPCOpen := by
  rw [tick_snd]
  unfold computeRequiredTRVPercentOpen
  rw [if_pos hU]
  unfold computeUnder
  rw [if_neg (by simp [hbk]), if_neg hng, if_neg (by omega : ¬ pc < i.maxPCOpen)]

/-- Witness for C9: 45% with `maxPCOpen = 40` and an armed turn-down
cooldown is pulled down to 40% under target. -/
theorem claim_C9_clamp_to_max_witness :
    (tick freshStateArmed 45 inputColdMax40).2 = inputColdMax40.maxPCOpen :=
  claim_C9_clamp_to_max freshStateArmed 45 inputColdMax40 (by decide) (by decide) (by decide)
    (by decide)

/-- C10: bake mode takes priority over the window-open fast close: with
`inBakeMode = true` and the adjusted temperature under target, the tick
returns `maxPCOpen` even when every window-open condition holds. -/
theorem claim_C10_bake_beats_window_open (s : ModelledRadValveState) (pc : Nat)
    (i : ModelledRadValveInputState) (hbk : i.inBakeMode = true)
    (hU : (preState s i).adjustedTempC i < (i.targetTempC : Int))
    (heco : i.hasEcoBias = true)
    (hfrost : MIN_VALVE_TARGET_C < (preState s i).adjustedTempC i)
    (hfall : (preState s i).getRawDelta < 0)
    (hfall10 : (preState s i).getRawDeltaM MIN_WINDOW_OPEN_TEMP_FALL_M ≤
      -MIN_WINDOW_OPEN_TEMP_FALL_C16) :
    (tick s pc i).2 = i.maxPCOpen := by
  rw [tick_snd]
  unfold computeRequiredTRVPercentOpen
  rw [if_pos hU]
  unfold computeUnder
  rw [if_pos hbk]

/-- Witness for C10: the eco falling scenario with bake engaged opens fully
instead of fast-closing. -/
theorem claim_C10_bake_beats_window_open_witness :
    (tick fallingState 80 inputEcoFallingBake).2 = inputEcoFallingBake.maxPCOpen :=
  claim_C10_bake_beats_window_open fallingState 80 inputEcoFallingBake (by decide) (by decide)
    (by decide) (by decide) (by decide) (by decide)

/-- A more-than-threshold jump between some adjacent pair makes the
activation scan fire. -/
theorem anyBigJump_of_adjacent (l : List Int) (n : Nat) (hn : n + 1 < l.length)
    (hj : MAX_TEMP_JUMP_C16 < (l.getD n 0 - l.getD (n + 1) 0).natAbs) :
    anyBigJump l = true := by
  induction l generalizing n with
  | nil => simp at hn
  | cons a tl ih =>
    cases tl with
    | nil => simp at hn
    | cons b rest =>
      cases n with
      | zero =>
        simp only [List.getD_cons_zero, List.getD_cons_succ] at hj
        simp only [anyBigJump, Bool.or_eq_true, decide_eq_true_eq]
        exact Or.inl hj
      | succ m =>
        simp only [List.getD_cons_succ] at hj
        simp only [anyBigJump, Bool.or_eq_true]
        refine Or.inr (ih m ?_ hj)
        simpa using Nat.lt_of_succ_lt_succ hn

set_option maxHeartbeats 400000 in
/-- C5: filter hysteresis, for the post-shift state the tick evaluates.
(1) with filtering off, an adjacent pair differing by more than
`MAX_TEMP_JUMP_C16` activates filtering; (2) filtering only deactivates on a
tick where the newest raw sample is within the threshold of the smoothed
mean; (3) when additionally no adjacent pair jumps, it does deactivate;
(4) the exit check runs before the activation scan: even when the exit
condition holds, a remaining adjacent jump re-engages filtering. -/
theorem claim_C5_filter_hysteresis (s : ModelledRadValveState) :
    (s.isFiltering = false →
      (∃ n, n + 1 < s.prevRawTempC16.length ∧
        MAX_TEMP_JUMP_C16 < (s.prevRawTempC16.getD n 0 - s.prevRawTempC16.getD (n + 1) 0).natAbs) →
      (updateFilter s).isFiltering = true)
    ∧ (s.isFiltering = true → (updateFilter s).isFiltering = false →
        (s.getSmoothedRecent - s.prevRawTempC16.getD 0 0).natAbs ≤ MAX_TEMP_JUMP_C16)
    ∧ (s.isFiltering = true →
        (s.getSmoothedRecent - s.prevRawTempC16.getD 0 0).natAbs ≤ MAX_TEMP_JUMP_C16 →
        anyBigJump s.prevRawTempC16 = false → (updateFilter s).isFiltering = false)
    ∧ (s.isFiltering = true →
        (s.getSmoothedRecent - s.prevRawTempC16.getD 0 0).natAbs ≤ MAX_TEMP_JUMP_C16 →
        anyBigJump s.prevRawTempC16 = true → (updateFilter s).isFiltering = true) := by
  refine ⟨?_, ?_, ?_, ?_⟩
  · intro hf ⟨n, hn, hj⟩
    have hbig := anyBigJump_of_adjacent _ n hn hj
    simp [updateFilter, hf, hbig]
  · intro hf hres
    by_cases h : (s.getSmoothedRecent - s.prevRawTempC16.getD 0 0).natAbs ≤ MAX_TEMP_JUMP_C16
    · exact h
    · exfalso
      simp only [List.getD_eq_getElem?_getD] at h
      simp [updateFilter, hf, h] at hres
  · intro hf hle hnj
    simp only [List.getD_eq_getElem?_getD] at hle
    simp [updateFilter, hf, hle, hnj]
  · intro hf hle hbig
    simp only [List.getD_eq_getElem?_getD] at hle
    simp [updateFilter, hf, hle, hbig]

/-- Witness for C5: a 10-unit adjacent jump activates filtering. -/
theorem claim_C5_filter_hysteresis_witness :
    (updateFilter jumpState).isFiltering = true :=
  (claim_C5_filter_hysteresis jumpState).1 (by decide) ⟨0, by decide, by decide⟩

/-- C6 counterexample: for the history [-5, 0, 0, 0] (sum -5, mean -1.25)
the implementation returns 0 (C division truncates toward zero) while the
nearest integer with ties rounding up is -1, so "the arithmetic mean rounded
to nearest with ties up" fails as stated for negative sums. -/
theorem claim_C6_counterexample :
    negativeSumState.getSmoothedRecent = 0
    ∧ specNearestMean negativeSumState.prevRawTempC16 = -1 := by decide

/-- C6 (amended): `getSmoothedRecent` computes `(sum + N/2) / N` with C
truncating division; whenever `sum + N/2` is nonnegative (in particular for
all nonnegative temperature readings) this equals the arithmetic mean
rounded to nearest with ties rounding up. -/
theorem claim_C6_smoothed_mean (s : ModelledRadValveState)
    (hlen : s.prevRawTempC16.length = filterLength)
    (h : 0 ≤ s.prevRawTempC16.sum + Int.ofNat (filterLength / 2)) :
    s.getSmoothedRecent = specNearestMean s.prevRawTempC16 := by
  unfold getSmoothedRecent smallIntMean specNearestMean
  rw [Int.tdiv_eq_ediv h (by decide), Int.fdiv_eq_ediv _ (by decide)]

/-- Witness for the amended C6 on a concrete nonnegative history. -/
theorem claim_C6_smoothed_mean_witness :
    positiveSumState.getSmoothedRecent = specNearestMean positiveSumState.prevRawTempC16 :=
  claim_C6_smoothed_mean positiveSumState (by decide) (by decide)

/-- Dropping entries from the history cannot create an adjacent jump. -/
theorem anyBigJump_take (l : List Int) (k : Nat) (h : anyBigJump l = false) :
    anyBigJump (l.take k) = false := by
  induction l generalizing k with
  | nil => simp [anyBigJump]
  | cons a tl ih =>
    cases tl with
    | nil => cases k <;> simp [anyBigJump]
    | cons b rest =>
      cases k with
      | zero => simp [anyBigJump]
      | succ m =>
        cases m with
        | zero => simp [anyBigJump]
        | succ j =>
          simp only [anyBigJump, Bool.or_eq_false_iff] at h
          simp only [List.take, anyBigJump, Bool.or_eq_false_iff]
          exact ⟨h.1, by simpa using ih (j + 1) h.2⟩

/-- Shifting in a repeat of the newest sample keeps the history jump-free. -/
theorem anyBigJump_shift (l : List Int) (raw : Int) (hhead : l.getD 0 0 = raw)
    (h : anyBigJump l = false) (k : Nat) :
    anyBigJump (raw :: l.take k) = false := by
  cases l with
  | nil =>
    cases k <;> simp [anyBigJump]
  | cons a tl =>
    simp only [List.getD_cons_zero] at hhead
    subst hhead
    cases k with
    | zero => simp [anyBigJump]
    | succ m =>
      simp only [List.take, anyBigJump, Bool.or_eq_false_iff]
      refine ⟨by simp, ?_⟩
      simpa using anyBigJump_take (a :: tl) (m + 1) h

/-- The mid-tick state is always initialised. -/
theorem preState_initialised (s : ModelledRadValveState) (i : ModelledRadValveInputState) :
    (preState s i).initialised = true := by
  by_cases h : s.initialised <;>
    simp [preState, decCooldowns, updateFilter, tickHistory, h]

/-- The mid-tick state keeps the cumulative-movement counter. -/
theorem preState_cumulative (s : ModelledRadValveState) (i : ModelledRadValveInputState) :
    (preState s i).cumulativeMovementPC = s.cumulativeMovementPC := by
  by_cases h : s.initialised <;>
    simp [preState, decCooldowns, updateFilter, tickHistory, h]

/-- The mid-tick history is the shifted history. -/
theorem preState_prevRaw (s : ModelledRadValveState) (i : ModelledRadValveInputState) :
    (preState s i).prevRawTempC16 =
      (tickHistory s (i.refTempC16 - refTempOffsetC16)).prevRawTempC16 := by
  simp [preState, decCooldowns, updateFilter]

/-- The shift on an initialised state conses the raw sample onto the
truncated old history. -/
theorem tickHistory_prevRaw_of_init (s : ModelledRadValveState) (raw : Int)
    (h : s.initialised = true) :
    (tickHistory s raw).prevRawTempC16 = raw :: s.prevRawTempC16.take (filterLength - 1) := by
  simp [tickHistory, h]

/-- The newest entry of the mid-tick history is this tick's raw sample. -/
theorem preState_head (s : ModelledRadValveState) (i : ModelledRadValveInputState) :
    (preState s i).prevRawTempC16.getD 0 0 = i.refTempC16 - refTempOffsetC16 := by
  by_cases h : s.initialised <;>
    simp [preState, decCooldowns, updateFilter, tickHistory, h]

/-- Filtering stays off over a tick whose shifted history has no big jump. -/
theorem preState_isFiltering_false (s : ModelledRadValveState)
    (i : ModelledRadValveInputState) (hf : s.isFiltering = false)
    (hj : anyBigJump (tickHistory s (i.refTempC16 - refTempOffsetC16)).prevRawTempC16 = false) :
    (preState s i).isFiltering = false := by
  have h1 : (tickHistory s (i.refTempC16 - refTempOffsetC16)).isFiltering = false := by
    by_cases h : s.initialised <;> simp [tickHistory, h, hf]
  simp [preState, decCooldowns, updateFilter, h1, hj]

/-- With filtering off the adjusted temperature is a function of the
snapshot alone. -/
theorem adjusted_of_not_filtering (s : ModelledRadValveState)
    (i : ModelledRadValveInputState) (hf : s.isFiltering = false) :
    s.adjustedTempC i = toInt8 (i.refTempC16.fdiv 16) := by
  simp [adjustedTempC, adjustedTempC16, hf]

/-- With filtering off the proportional target is a function of the
snapshot alone. -/
theorem targetPO_of_not_filtering (s : ModelledRadValveState)
    (i : ModelledRadValveInputState) (hf : s.isFiltering = false) :
    s.targetPOOf i = constrain ((16 - (i.refTempC16.emod 16).toNat) * 6)
      i.minPCOpen i.maxPCOpen := by
  simp [targetPOOf, lsbitsOf, adjustedTempC16, hf]

/-- At target with the proportional target equal to the current percent the
decision procedure holds, regardless of every other flag and cooldown. -/
theorem compute_hold_at_target (s : ModelledRadValveState) (pc : Nat)
    (i : ModelledRadValveInputState)
    (h1 : s.adjustedTempC i = (i.targetTempC : Int)) (h2 : s.targetPOOf i = pc) :
    s.computeRequiredTRVPercentOpen pc i = pc := by
  unfold computeRequiredTRVPercentOpen
  rw [if_neg (by omega), if_neg (by omega)]
  unfold computeAtTarget
  rw [if_neg (by omega : ¬ s.targetPOOf i ≠ pc)]

/-- A tick whose decision procedure holds commits no movement. -/
theorem tick_hold (s : ModelledRadValveState) (pc : Nat) (i : ModelledRadValveInputState)
    (hc : (preState s i).computeRequiredTRVPercentOpen pc i = pc) :
    tick s pc i = ({ preState s i with valveMoved := false }, pc) := by
  simp only [tick]
  rw [if_neg (by simp [hc])]

/-- One equilibrium tick on an initialised, unfiltered, jump-free state with
the snapshot at target: the tick holds and the invariant persists. -/
theorem equilibrium_step (s' : ModelledRadValveState) (pc : Nat)
    (i : ModelledRadValveInputState)
    (hinit : s'.initialised = true)
    (hf : s'.isFiltering = false)
    (hhead : s'.prevRawTempC16.getD 0 0 = i.refTempC16 - refTempOffsetC16)
    (hj : anyBigJump s'.prevRawTempC16 = false)
    (hT : toInt8 (i.refTempC16.fdiv 16) = (i.targetTempC : Int))
    (hPO : constrain ((16 - (i.refTempC16.emod 16).toNat) * 6) i.minPCOpen i.maxPCOpen = pc) :
    tick s' pc i = ({ preState s' i with valveMoved := false }, pc)
    ∧ (preState s' i).isFiltering = false
    ∧ anyBigJump (preState s' i).prevRawTempC16 = false := by
  have hjnext : anyBigJump (tickHistory s' (i.refTempC16 - refTempOffsetC16)).prevRawTempC16
      = false := by
    rw [tickHistory_prevRaw_of_init s' _ hinit]
    exact anyBigJump_shift _ _ hhead hj _
  have hpf : (preState s' i).isFiltering = false := preState_isFiltering_false s' i hf hjnext
  have hcomp : (preState s' i).computeRequiredTRVPercentOpen pc i = pc := by
    refine compute_hold_at_target _ pc i ?_ ?_
    · rw [adjusted_of_not_filtering _ i hpf]; exact hT
    · rw [targetPO_of_not_filtering _ i hpf]; exact hPO
  refine ⟨tick_hold s' pc i hcomp, hpf, ?_⟩
  rw [preState_prevRaw]
  exact hjnext

/-- C7 counterexample: with a filtering state whose history still holds one
anomalous sample, the claim's equilibrium conditions hold at the first tick
(adjusted temperature equals the 20C target, `targetPO` equals the 54%
percent) and that tick indeed does not move — yet the fourth tick with
entirely unchanged input moves the valve to 64%, because the filter
disengages once the anomaly ages out and the adjusted temperature jumps.
So "this remains true for every further tick with unchanged input" fails. -/
theorem claim_C7_counterexample :
    (preState filteringSpikeState inputAtTarget320).adjustedTempC inputAtTarget320
        = (inputAtTarget320.targetTempC : Int)
    ∧ (preState filteringSpikeState inputAtTarget320).targetPOOf inputAtTarget320 = 54
    ∧ (tickIter filteringSpikeState 54 inputAtTarget320 1).2 = 54
    ∧ (tickIter filteringSpikeState 54 inputAtTarget320 1).1.valveMoved = false
    ∧ (tickIter filteringSpikeState 54 inputAtTarget320 4).2 = 64 := by decide

set_option maxHeartbeats 1000000 in
/-- C7 (amended): when at the tick's decision point filtering is off, the
shifted history has no adjacent jump above the threshold, the adjusted
temperature equals the target and the proportional target equals the current
percent, then any number of further ticks with unchanged input produce no
movement: the percent stays, the cumulative-movement counter is unchanged
and `valveMoved` reports false on every performed tick. -/
theorem claim_C7_equilibrium_amended (s : ModelledRadValveState) (pc : Nat)
    (i : ModelledRadValveInputState) (n : Nat)
    (hf : (preState s i).isFiltering = false)
    (hj : anyBigJump (preState s i).prevRawTempC16 = false)
    (hT : (preState s i).adjustedTempC i = (i.targetTempC : Int))
    (hPO : (preState s i).targetPOOf i = pc) :
    (tickIter s pc i n).2 = pc
    ∧ (tickIter s pc i n).1.cumulativeMovementPC = s.cumulativeMovementPC
    ∧ (1 ≤ n → (tickIter s pc i n).1.valveMoved = false) := by
  have hT' : toInt8 (i.refTempC16.fdiv 16) = (i.targetTempC : Int) := by
    rw [← adjusted_of_not_filtering _ i hf]; exact hT
  have hPO' : constrain ((16 - (i.refTempC16.emod 16).toNat) * 6) i.minPCOpen i.maxPCOpen
      = pc := by
    rw [← targetPO_of_not_filtering _ i hf]; exact hPO
  have hcomp1 : (preState s i).computeRequiredTRVPercentOpen pc i = pc :=
    compute_hold_at_target _ pc i hT hPO
  have key : ∀ m, 1 ≤ m →
      (tickIter s pc i m).2 = pc
      ∧ (tickIter s pc i m).1.initialised = true
      ∧ (tickIter s pc i m).1.isFiltering = false
      ∧ (tickIter s pc i m).1.prevRawTempC16.getD 0 0 = i.refTempC16 - refTempOffsetC16
      ∧ anyBigJump (tickIter s pc i m).1.prevRawTempC16 = false
      ∧ (tickIter s pc i m).1.cumulativeMovementPC = s.cumulativeMovementPC
      ∧ (tickIter s pc i m).1.valveMoved = false := by
    intro m
    induction m with
    | zero => intro h; exact absurd h (by omega)
    | succ k ih =>
      intro _
      by_cases hk : 1 ≤ k
      · obtain ⟨hp, hini, hfi, hhd, hji, hcum, _⟩ := ih hk
        have hstep := equilibrium_step (tickIter s pc i k).1 pc i hini hfi hhd hji hT' hPO'
        simp only [tickIter]
        rw [hp, hstep.1]
        refine ⟨rfl, ?_, ?_, ?_, ?_, ?_, rfl⟩
        · exact preState_initialised _ i
        · exact hstep.2.1
        · exact preState_head _ i
        · exact hstep.2.2
        · rw [preState_cumulative]; exact hcum
      · have hk0 : k = 0 := by omega
        subst hk0
        simp only [tickIter]
        rw [tick_hold s pc i hcomp1]
        refine ⟨rfl, ?_, ?_, ?_, ?_, ?_, rfl⟩
        · exact preState_initialised _ i
        · exact hf
        · exact preState_head _ i
        · exact hj
        · exact preState_cumulative _ i
  cases n with
  | zero => exact ⟨rfl, rfl, fun h => absurd h (by omega)⟩
  | succ k =>
    obtain ⟨hp, _, _, _, _, hcum, hmv⟩ := key (k + 1) (by omega)
    exact ⟨hp, hcum, fun _ => hmv⟩

/-- Witness for the amended C7: three equilibrium ticks at 54% with a steady
history produce no movement. -/
theorem claim_C7_equilibrium_amended_witness :
    (tickIter steadyState319 54 inputAtTarget327 3).2 = 54
    ∧ (tickIter steadyState319 54 inputAtTarget327 3).1.cumulativeMovementPC
        = steadyState319.cumulativeMovementPC
    ∧ (tickIter steadyState319 54 inputAtTarget327 3).1.valveMoved = false := by
  obtain ⟨h1, h2, h3⟩ := claim_C7_equilibrium_amended steadyState319 54 inputAtTarget327 3
    (by decide) (by decide) (by decide) (by decide)
  exact ⟨h1, h2, h3 (by omega)⟩
